import Mathlib

/-!
Verification of the request resilience and validation pipeline of the
jules-api-sdk TypeScript client.

The development shallowly embeds the relevant source functions:

* `src/http.ts`: `DEFAULT_RETRY_CONFIG`, `isRetryableError`, `getRetryAfterMs`,
  the retry interceptor installed by `createHttpClient`, and
  `requestWithValidation`.
* `src/schemas/sessions.ts`, `src/schemas/activities.ts`,
  `src/schemas/sources.ts`: the Zod validators, embedded as boolean
  validators over a JSON value model.
* `src/client.ts`: the local precondition checks of `sendMessage` and
  `createSession`.

The retry interceptor is modelled as a recursion over the sequence of
network outcomes; the `fuel` argument is a termination device only: it is
always called with `fuel = maxRetries - retryCount`, and the retry guard
`retryCount < maxRetries` guarantees the fuel never reaches zero at a
moment where the code would retry, so the fuel-zero branch (which returns
the same rejection the guard's else-branch returns) is unreachable from
the entry point `execute`.
-/

/-- JSON-equivalent values, the payloads the Zod schemas validate. -/
inductive Json where
  | null
  | bool (b : Bool)
  | num (n : Int)
  | str (s : String)
  | arr (elems : List Json)
  | obj (fields : List (String × Json))

/-- Field access on a JSON object (`undefined` for missing keys and for
non-objects, modelled as `none`). -/
def Json.getField : Json → String → Option Json
  | .obj fields, k => fields.lookup k
  | _, _ => none

/-- Whether a JSON value is an object (what `z.object` requires of the input). -/
def Json.isObj : Json → Bool
  | .obj _ => true
  | _ => false

/-! ## Transport: retry configuration (src/http.ts) -/

/-- `RetryConfig` from src/http.ts: the caller-supplied partial retry
configuration; every field is optional. -/
structure RetryConfig where
  maxRetries : Option Nat := none
  initialDelayMs : Option Nat := none
  maxDelayMs : Option Nat := none
  retryableStatuses : Option (List Nat) := none

/-- `Required<RetryConfig>`: a fully resolved retry policy. -/
structure RetrySettings where
  maxRetries : Nat
  initialDelayMs : Nat
  maxDelayMs : Nat
  retryableStatuses : List Nat

/-- `DEFAULT_RETRY_CONFIG` from src/http.ts lines 26-31. -/
def DEFAULT_RETRY_CONFIG : RetrySettings :=
  { maxRetries := 0
    initialDelayMs := 1000
    maxDelayMs := 10000
    retryableStatuses := [408, 429, 500, 502, 503, 504] }

/-- The spread `{ ...DEFAULT_RETRY_CONFIG, ...retryConfig }` in
`createHttpClient`: caller-supplied fields override the defaults. -/
def resolveRetrySettings (retryConfig : Option RetryConfig) : RetrySettings :=
  match retryConfig with
  | none => DEFAULT_RETRY_CONFIG
  | some c =>
    { maxRetries := c.maxRetries.getD DEFAULT_RETRY_CONFIG.maxRetries
      initialDelayMs := c.initialDelayMs.getD DEFAULT_RETRY_CONFIG.initialDelayMs
      maxDelayMs := c.maxDelayMs.getD DEFAULT_RETRY_CONFIG.maxDelayMs
      retryableStatuses := c.retryableStatuses.getD DEFAULT_RETRY_CONFIG.retryableStatuses }

/-- The value of a `Retry-After` response header, classified by how
`getRetryAfterMs` (src/http.ts lines 46-63) parses the header string:
`seconds n` when `parseInt` succeeds with `n`, `httpDate t` when `parseInt`
yields NaN but `new Date(...)` parses to epoch-milliseconds `t`, and
`malformed` when neither parse succeeds (or the header string is falsy). -/
inductive RetryAfterValue where
  | seconds (n : Int)
  | httpDate (epochMs : Int)
  | malformed

/-- An HTTP error response (`error.response` on an AxiosError): the status
code and the optional `retry-after` header. A connection-level failure has
no `ErrResponse` at all. -/
structure ErrResponse where
  status : Nat
  retryAfter : Option RetryAfterValue

/-- `isRetryableError` from src/http.ts lines 37-44: retryable iff no
response was received at all, or the status is in the retryable set. -/
def isRetryableError (response : Option ErrResponse) (retryableStatuses : List Nat) : Bool :=
  match response with
  | none => true
  | some r => retryableStatuses.contains r.status

/-- `getRetryAfterMs` from src/http.ts lines 46-63: `null` when there is no
response or no (parseable) header; `seconds * 1000` when the header parses
as a whole number; `max(0, date - Date.now())` when it parses as an
HTTP-date. `now` is the value of `Date.now()` at the call. -/
def getRetryAfterMs (response : Option ErrResponse) (now : Int) : Option Int :=
  match response with
  | none => none
  | some r =>
    match r.retryAfter with
    | none => none
    | some (.seconds n) => some (n * 1000)
    | some (.httpDate t) => some (max 0 (t - now))
    | some .malformed => none

/-! ## Transport: the retry interceptor (src/http.ts lines 86-143) -/

/-- The immutable part of an axios request config: method, url, query
params and body, the descriptor of one logical call. -/
structure RequestDescriptor where
  method : String
  url : String
  params : List (String × String)
  data : Option Json

/-- What the network returns to one attempt: a successful response with a
body, or a failure (with the HTTP response if one was received, `none` for
a connection-level failure). -/
inductive Outcome where
  | success (body : Json)
  | failure (response : Option ErrResponse)

/-- One network attempt as observed at the wire: the request config used,
the value of `config._retryCount` when the attempt was issued, and the
delay slept immediately before issuing it (0 for the first attempt). -/
structure AttemptRecord where
  desc : RequestDescriptor
  retryCount : Nat
  delayBeforeMs : Int

/-- How one logical call terminates: the resolved response body, or the
rejected error together with the number of retries performed. -/
inductive FinalResult where
  | success (body : Json)
  | failure (response : Option ErrResponse) (retries : Nat)

/-- The exponential backoff of src/http.ts lines 124-128:
`Math.min(initialDelayMs * 2^(retryCount - 1), maxDelayMs)`, where
`retryCount` is the already-incremented attempt counter. -/
def computeBackoffMs (rs : RetrySettings) (newRetryCount : Nat) : Int :=
  min ((rs.initialDelayMs : Int) * 2 ^ (newRetryCount - 1)) (rs.maxDelayMs : Int)

/-- The delay chosen before a retry (src/http.ts lines 112-137): the
`Retry-After` hint when present, the exponential backoff otherwise. -/
def retryDelayMs (rs : RetrySettings) (response : Option ErrResponse)
    (newRetryCount : Nat) (now : Int) : Int :=
  match getRetryAfterMs response now with
  | some ms => ms
  | none => computeBackoffMs rs newRetryCount

/-- The retry interceptor loop of src/http.ts lines 86-143. `outcomes k`
is the network outcome of the attempt issued with `config._retryCount = k`;
`nowAt k` is `Date.now()` when the retry decision after that attempt runs.
Returns the full trace of attempts and the final result. `fuel` is a
termination device only (see the module comment): every call from
`execute` maintains `rs.maxRetries - retryCount ≤ fuel`, and the retry
guard implies `retryCount < rs.maxRetries`, so the fuel-zero branch
(returning exactly what the guard's else-branch returns) is unreachable. -/
def runAttempts (rs : RetrySettings) (outcomes : Nat → Outcome) (nowAt : Nat → Int)
    (desc : RequestDescriptor) : Nat → Nat → Int → List AttemptRecord × FinalResult
  | 0, retryCount, delayBefore =>
    -- With zero fuel the retry guard `retryCount < maxRetries` cannot hold
    -- (every call maintains maxRetries - retryCount ≤ fuel), so the failure
    -- is rejected exactly as in the guard's else-branch below.
    let att : AttemptRecord :=
      { desc := desc, retryCount := retryCount, delayBeforeMs := delayBefore }
    match outcomes retryCount with
    | .success body => ([att], .success body)
    | .failure resp => ([att], .failure resp retryCount)
  | fuel + 1, retryCount, delayBefore =>
    let att : AttemptRecord :=
      { desc := desc, retryCount := retryCount, delayBeforeMs := delayBefore }
    match outcomes retryCount with
    | .success body => ([att], .success body)
    | .failure resp =>
      if decide (retryCount < rs.maxRetries) && isRetryableError resp rs.retryableStatuses then
        let next := runAttempts rs outcomes nowAt desc fuel (retryCount + 1)
          (retryDelayMs rs resp (retryCount + 1) (nowAt retryCount))
        (att :: next.1, next.2)
      else
        ([att], .failure resp retryCount)

/-- One logical call through the transport: the first attempt is issued
with `config._retryCount = 0` and no preceding delay. -/
def execute (rs : RetrySettings) (outcomes : Nat → Outcome) (nowAt : Nat → Int)
    (desc : RequestDescriptor) : List AttemptRecord × FinalResult :=
  runAttempts rs outcomes nowAt desc rs.maxRetries 0 0

/-- Claim C1: with the default retry configuration (maxRetries = 0, the
value used when the caller supplies no retryConfig), every call makes
exactly one network attempt, and the outcome of that single attempt —
success or any failure — is surfaced immediately to the caller. -/
theorem default_config_single_attempt :
    DEFAULT_RETRY_CONFIG.maxRetries = 0 ∧
    resolveRetrySettings none = DEFAULT_RETRY_CONFIG ∧
    ∀ (desc : RequestDescriptor) (outcomes : Nat → Outcome) (nowAt : Nat → Int),
      (execute DEFAULT_RETRY_CONFIG outcomes nowAt desc).1.length = 1 ∧
      (execute DEFAULT_RETRY_CONFIG outcomes nowAt desc).2 =
        (match outcomes 0 with
         | .success body => .success body
         | .failure resp => .failure resp 0) := by
  refine ⟨rfl, rfl, ?_⟩
  intro desc outcomes nowAt
  cases h : outcomes 0 with
  | success body =>
    constructor <;> simp [execute, runAttempts, DEFAULT_RETRY_CONFIG, h]
  | failure resp =>
    constructor <;> simp [execute, runAttempts, DEFAULT_RETRY_CONFIG, h]

/-- The attempt trace never exceeds `fuel + 1` attempts (so at most
`maxRetries` retries from the entry point). -/
theorem runAttempts_length_le (rs : RetrySettings) (outcomes : Nat → Outcome)
    (nowAt : Nat → Int) (desc : RequestDescriptor) :
    ∀ (fuel retryCount : Nat) (delayBefore : Int),
      (runAttempts rs outcomes nowAt desc fuel retryCount delayBefore).1.length ≤ fuel + 1 := by
  intro fuel
  induction fuel with
  | zero =>
    intro c d
    cases h : outcomes c with
    | success body => simp [runAttempts, h]
    | failure resp => simp [runAttempts, h]
  | succ fuel ih =>
    intro c d
    cases h : outcomes c with
    | success body => simp [runAttempts, h]
    | failure resp =>
      by_cases hr :
          (decide (c < rs.maxRetries) && isRetryableError resp rs.retryableStatuses) = true
      · have := ih (c + 1) (retryDelayMs rs resp (c + 1) (nowAt c))
        simp only [runAttempts, h, hr, if_true]
        simpa using Nat.succ_le_succ this
      · simp [runAttempts, h, hr]

/-- Shape of every attempt in the trace: the request descriptor is the one
the call started with, the attempt counter of the `j`-th recorded attempt
is the entry counter plus `j`, the first recorded attempt is preceded by
the entry delay, and every later attempt is preceded by exactly the delay
computed from the failure outcome of the attempt before it. -/
theorem runAttempts_get?_spec (rs : RetrySettings) (outcomes : Nat → Outcome)
    (nowAt : Nat → Int) (desc : RequestDescriptor) :
    ∀ (fuel retryCount : Nat) (delayBefore : Int) (j : Nat) (a : AttemptRecord),
      (runAttempts rs outcomes nowAt desc fuel retryCount delayBefore).1.get? j = some a →
      a.desc = desc ∧ a.retryCount = retryCount + j ∧
      (j = 0 → a.delayBeforeMs = delayBefore) ∧
      (0 < j → ∃ resp, outcomes (retryCount + j - 1) = .failure resp ∧
        a.delayBeforeMs = retryDelayMs rs resp (retryCount + j) (nowAt (retryCount + j - 1))) := by
  intro fuel
  induction fuel with
  | zero =>
    intro c d j a hja
    cases h : outcomes c with
    | success body =>
      simp only [runAttempts, h] at hja
      cases j with
      | zero =>
        simp only [List.get?_cons_zero, Option.some.injEq] at hja
        subst hja
        simp
      | succ j' => simp at hja
    | failure resp =>
      simp only [runAttempts, h] at hja
      cases j with
      | zero =>
        simp only [List.get?_cons_zero, Option.some.injEq] at hja
        subst hja
        simp
      | succ j' => simp at hja
  | succ fuel ih =>
    intro c d j a hja
    cases h : outcomes c with
    | success body =>
      simp only [runAttempts, h] at hja
      cases j with
      | zero =>
        simp only [List.get?_cons_zero, Option.some.injEq] at hja
        subst hja
        simp
      | succ j' => simp at hja
    | failure resp =>
      cases hr : (decide (c < rs.maxRetries) && isRetryableError resp rs.retryableStatuses) with
      | true =>
        simp only [runAttempts, h, hr, if_true] at hja
        cases j with
        | zero =>
          simp only [List.get?_cons_zero, Option.some.injEq] at hja
          subst hja
          simp
        | succ j' =>
          simp only [List.get?_cons_succ] at hja
          obtain ⟨hdesc, hcount, hfirst, hlater⟩ :=
            ih (c + 1) (retryDelayMs rs resp (c + 1) (nowAt c)) j' a hja
          refine ⟨hdesc, by omega, by simp, ?_⟩
          intro _
          cases j' with
          | zero =>
            refine ⟨resp, ?_, ?_⟩
            · simpa using h
            · simpa using hfirst rfl
          | succ j'' =>
            obtain ⟨resp', hresp', hdelay'⟩ := hlater (by omega)
            refine ⟨resp', ?_, ?_⟩
            · have e : c + 1 + (j'' + 1) - 1 = c + (j'' + 1 + 1) - 1 := by omega
              rw [e] at hresp'
              exact hresp'
            · have e1 : c + 1 + (j'' + 1) = c + (j'' + 1 + 1) := by omega
              rw [e1] at hdelay'
              exact hdelay'
      | false =>
        simp only [runAttempts, h, hr, Bool.false_eq_true, if_false] at hja
        cases j with
        | zero =>
          simp only [List.get?_cons_zero, Option.some.injEq] at hja
          subst hja
          simp
        | succ j' => simp at hja

/-- Claim C2: a failure whose HTTP status is outside the configured
retryable-status set is rejected immediately — one attempt, zero retries —
even when maxRetries is positive; and a failure is classified retryable
iff no response was received at all or the response status is in the
retryable set, whose default is [408, 429, 500, 502, 503, 504]. -/
theorem terminal_failure_no_retry :
    (∀ (rs : RetrySettings) (desc : RequestDescriptor) (outcomes : Nat → Outcome)
       (nowAt : Nat → Int) (fuel c : Nat) (d : Int) (r : ErrResponse),
       outcomes c = .failure (some r) →
       rs.retryableStatuses.contains r.status = false →
       runAttempts rs outcomes nowAt desc fuel c d =
         ([{ desc := desc, retryCount := c, delayBeforeMs := d }],
          .failure (some r) c)) ∧
    (∀ (rs : RetrySettings) (desc : RequestDescriptor) (outcomes : Nat → Outcome)
       (nowAt : Nat → Int) (r : ErrResponse),
       outcomes 0 = .failure (some r) →
       rs.retryableStatuses.contains r.status = false →
       (execute rs outcomes nowAt desc).1.length = 1 ∧
       (execute rs outcomes nowAt desc).2 = .failure (some r) 0) ∧
    (∀ (response : Option ErrResponse) (statuses : List Nat),
       isRetryableError response statuses = true ↔
         response = none ∨ ∃ r, response = some r ∧ statuses.contains r.status = true) ∧
    DEFAULT_RETRY_CONFIG.retryableStatuses = [408, 429, 500, 502, 503, 504] := by
  have hgen : ∀ (rs : RetrySettings) (desc : RequestDescriptor) (outcomes : Nat → Outcome)
      (nowAt : Nat → Int) (fuel c : Nat) (d : Int) (r : ErrResponse),
      outcomes c = .failure (some r) →
      rs.retryableStatuses.contains r.status = false →
      runAttempts rs outcomes nowAt desc fuel c d =
        ([{ desc := desc, retryCount := c, delayBeforeMs := d }],
         .failure (some r) c) := by
    intro rs desc outcomes nowAt fuel c d r h hc
    have hmem : r.status ∉ rs.retryableStatuses := by simpa using hc
    cases fuel with
    | zero => simp [runAttempts, h]
    | succ fuel' => simp [runAttempts, h, isRetryableError, hmem]
  refine ⟨hgen, ?_, ?_, rfl⟩
  · intro rs desc outcomes nowAt r h hc
    have he := hgen rs desc outcomes nowAt rs.maxRetries 0 0 r h hc
    constructor <;> simp [execute, he]
  · intro response statuses
    cases response with
    | none => simp [isRetryableError]
    | some r => simp [isRetryableError]

/-- Witness for C2: a 404 response under maxRetries = 3 is surfaced after
a single attempt with zero retries. -/
theorem terminal_failure_no_retry_witness :
    (execute
        { maxRetries := 3, initialDelayMs := 1000, maxDelayMs := 10000,
          retryableStatuses := [408, 429, 500, 502, 503, 504] }
        (fun _ => .failure (some { status := 404, retryAfter := none }))
        (fun _ => 0)
        { method := "GET", url := "/sessions/s1", params := [], data := none }).1.length = 1 ∧
    (execute
        { maxRetries := 3, initialDelayMs := 1000, maxDelayMs := 10000,
          retryableStatuses := [408, 429, 500, 502, 503, 504] }
        (fun _ => .failure (some { status := 404, retryAfter := none }))
        (fun _ => 0)
        { method := "GET", url := "/sessions/s1", params := [], data := none }).2 =
      .failure (some { status := 404, retryAfter := none }) 0 :=
  terminal_failure_no_retry.2.1
    { maxRetries := 3, initialDelayMs := 1000, maxDelayMs := 10000,
      retryableStatuses := [408, 429, 500, 502, 503, 504] }
    { method := "GET", url := "/sessions/s1", params := [], data := none }
    (fun _ => .failure (some { status := 404, retryAfter := none }))
    (fun _ => 0)
    { status := 404, retryAfter := none }
    rfl (by decide)

/-- Claim C3: at most maxRetries retries occur (so at most maxRetries + 1
attempts), and when the failed attempt carries no usable Retry-After hint
the delay between attempt k and attempt k+1 (attempts counted from 1)
equals min(initialDelayMs * 2^(k-1), maxDelayMs). -/
theorem retry_bound_and_backoff :
    ∀ (rs : RetrySettings) (desc : RequestDescriptor) (outcomes : Nat → Outcome)
      (nowAt : Nat → Int),
      (execute rs outcomes nowAt desc).1.length ≤ rs.maxRetries + 1 ∧
      ∀ (k : Nat) (hk : k < (execute rs outcomes nowAt desc).1.length)
        (resp : Option ErrResponse),
        0 < k →
        outcomes (k - 1) = .failure resp →
        getRetryAfterMs resp (nowAt (k - 1)) = none →
        ((execute rs outcomes nowAt desc).1.get ⟨k, hk⟩).delayBeforeMs =
          min ((rs.initialDelayMs : Int) * 2 ^ (k - 1)) (rs.maxDelayMs : Int) := by
  intro rs desc outcomes nowAt
  constructor
  · exact runAttempts_length_le rs outcomes nowAt desc rs.maxRetries 0 0
  · intro k hk resp hk0 hout hnone
    obtain ⟨-, -, -, hlater⟩ :=
      runAttempts_get?_spec rs outcomes nowAt desc rs.maxRetries 0 0 k _
        (List.get?_eq_get hk)
    obtain ⟨resp', hresp', hdelay⟩ := hlater hk0
    rw [Nat.zero_add] at hresp' hdelay
    rw [hout] at hresp'
    cases hresp'
    rw [hdelay, retryDelayMs, hnone, computeBackoffMs]

/-- Witness for C3: two consecutive 500 responses under maxRetries = 2
give at most three attempts, and the delay before the second attempt is
min(1000 * 2^0, 10000). -/
theorem retry_bound_and_backoff_witness :
    (execute
        { maxRetries := 2, initialDelayMs := 1000, maxDelayMs := 10000,
          retryableStatuses := [408, 429, 500, 502, 503, 504] }
        (fun _ => .failure (some { status := 500, retryAfter := none }))
        (fun _ => 0)
        { method := "GET", url := "/sources", params := [], data := none }).1.length ≤ 2 + 1 ∧
    ((execute
        { maxRetries := 2, initialDelayMs := 1000, maxDelayMs := 10000,
          retryableStatuses := [408, 429, 500, 502, 503, 504] }
        (fun _ => .failure (some { status := 500, retryAfter := none }))
        (fun _ => 0)
        { method := "GET", url := "/sources", params := [], data := none }).1.get
      ⟨1, by decide⟩).delayBeforeMs =
      min ((1000 : Int) * 2 ^ 0) (10000 : Int) := by
  refine ⟨(retry_bound_and_backoff _ _ _ _).1, ?_⟩
  exact (retry_bound_and_backoff
      { maxRetries := 2, initialDelayMs := 1000, maxDelayMs := 10000,
        retryableStatuses := [408, 429, 500, 502, 503, 504] }
      { method := "GET", url := "/sources", params := [], data := none }
      (fun _ => .failure (some { status := 500, retryAfter := none }))
      (fun _ => 0)).2 1 (by decide)
    (some { status := 500, retryAfter := none }) (by decide) rfl rfl

/-- Claim C4: a Retry-After header on the failed response overrides the
exponential backoff for the following retry: a whole-number value of n
seconds delays exactly n * 1000 ms, and an HTTP-date value delays by the
time remaining until that date, floored at 0 when it is in the past. -/
theorem retry_after_honored :
    ∀ (rs : RetrySettings) (desc : RequestDescriptor) (outcomes : Nat → Outcome)
      (nowAt : Nat → Int) (k : Nat)
      (hk : k < (execute rs outcomes nowAt desc).1.length),
      0 < k →
      (∀ (status : Nat) (n : Int),
        outcomes (k - 1) =
          .failure (some { status := status, retryAfter := some (.seconds n) }) →
        ((execute rs outcomes nowAt desc).1.get ⟨k, hk⟩).delayBeforeMs = n * 1000) ∧
      (∀ (status : Nat) (t : Int),
        outcomes (k - 1) =
          .failure (some { status := status, retryAfter := some (.httpDate t) }) →
        ((execute rs outcomes nowAt desc).1.get ⟨k, hk⟩).delayBeforeMs =
          max 0 (t - nowAt (k - 1))) := by
  intro rs desc outcomes nowAt k hk hk0
  obtain ⟨-, -, -, hlater⟩ :=
    runAttempts_get?_spec rs outcomes nowAt desc rs.maxRetries 0 0 k _
      (List.get?_eq_get hk)
  obtain ⟨resp', hresp', hdelay⟩ := hlater hk0
  rw [Nat.zero_add] at hresp' hdelay
  constructor
  · intro status n hout
    rw [hout] at hresp'
    cases hresp'
    rw [hdelay, retryDelayMs, getRetryAfterMs]
  · intro status t hout
    rw [hout] at hresp'
    cases hresp'
    rw [hdelay, retryDelayMs, getRetryAfterMs]

/-- Witness for C4: a 429 response with Retry-After of 2 seconds makes the
delay before the next attempt exactly 2000 ms. -/
theorem retry_after_honored_witness :
    ((execute
        { maxRetries := 1, initialDelayMs := 1000, maxDelayMs := 10000,
          retryableStatuses := [408, 429, 500, 502, 503, 504] }
        (fun _ => .failure (some { status := 429, retryAfter := some (.seconds 2) }))
        (fun _ => 0)
        { method := "POST", url := "/sessions", params := [], data := none }).1.get
      ⟨1, by decide⟩).delayBeforeMs = 2 * 1000 :=
  (retry_after_honored
      { maxRetries := 1, initialDelayMs := 1000, maxDelayMs := 10000,
        retryableStatuses := [408, 429, 500, 502, 503, 504] }
      { method := "POST", url := "/sessions", params := [], data := none }
      (fun _ => .failure (some { status := 429, retryAfter := some (.seconds 2) }))
      (fun _ => 0) 1 (by decide) (by decide)).1 429 2 rfl

/-- Claim C5: every attempt of one logical call re-issues the identical
request — same method, path, query parameters and body — and only the
attempt counter (which equals the attempt's index) changes. -/
theorem retried_request_identical :
    ∀ (rs : RetrySettings) (desc : RequestDescriptor) (outcomes : Nat → Outcome)
      (nowAt : Nat → Int) (j : Nat)
      (hj : j < (execute rs outcomes nowAt desc).1.length),
      ((execute rs outcomes nowAt desc).1.get ⟨j, hj⟩).desc.method = desc.method ∧
      ((execute rs outcomes nowAt desc).1.get ⟨j, hj⟩).desc.url = desc.url ∧
      ((execute rs outcomes nowAt desc).1.get ⟨j, hj⟩).desc.params = desc.params ∧
      ((execute rs outcomes nowAt desc).1.get ⟨j, hj⟩).desc.data = desc.data ∧
      ((execute rs outcomes nowAt desc).1.get ⟨j, hj⟩).retryCount = j := by
  intro rs desc outcomes nowAt j hj
  obtain ⟨hdesc, hcount, -, -⟩ :=
    runAttempts_get?_spec rs outcomes nowAt desc rs.maxRetries 0 0 j _
      (List.get?_eq_get hj)
  refine ⟨by rw [hdesc], by rw [hdesc], by rw [hdesc], by rw [hdesc], by omega⟩

/-- Witness for C5: during a retried POST the second attempt carries the
same method, url, params and body as the first, with attempt counter 1. -/
theorem retried_request_identical_witness :
    ((execute
        { maxRetries := 1, initialDelayMs := 1000, maxDelayMs := 10000,
          retryableStatuses := [408, 429, 500, 502, 503, 504] }
        (fun _ => .failure (some { status := 503, retryAfter := none }))
        (fun _ => 0)
        { method := "POST", url := "/sessions", params := [("pageSize", "5")],
          data := some (Json.str "b") }).1.get ⟨1, by decide⟩).desc.method = "POST" ∧
    ((execute
        { maxRetries := 1, initialDelayMs := 1000, maxDelayMs := 10000,
          retryableStatuses := [408, 429, 500, 502, 503, 504] }
        (fun _ => .failure (some { status := 503, retryAfter := none }))
        (fun _ => 0)
        { method := "POST", url := "/sessions", params := [("pageSize", "5")],
          data := some (Json.str "b") }).1.get ⟨1, by decide⟩).desc.url = "/sessions" ∧
    ((execute
        { maxRetries := 1, initialDelayMs := 1000, maxDelayMs := 10000,
          retryableStatuses := [408, 429, 500, 502, 503, 504] }
        (fun _ => .failure (some { status := 503, retryAfter := none }))
        (fun _ => 0)
        { method := "POST", url := "/sessions", params := [("pageSize", "5")],
          data := some (Json.str "b") }).1.get ⟨1, by decide⟩).retryCount = 1 := by
  obtain ⟨h1, h2, h3, h4, h5⟩ :=
    retried_request_identical
      { maxRetries := 1, initialDelayMs := 1000, maxDelayMs := 10000,
        retryableStatuses := [408, 429, 500, 502, 503, 504] }
      { method := "POST", url := "/sessions", params := [("pageSize", "5")],
        data := some (Json.str "b") }
      (fun _ => .failure (some { status := 503, retryAfter := none }))
      (fun _ => 0) 1 (by decide)
  exact ⟨h1, h2, h5⟩

/-! ## Validated request executor (src/http.ts lines 148-188) -/

/-- Outcome of one validated call: the typed value, a propagated transport
failure, or a validation failure carrying the raw response body
(`responseData`) and the structured validation error (`zodError`), exactly
the fields `requestWithValidation` attaches to the thrown error. -/
inductive ExecResult where
  | ok (value : Json)
  | transportFailure (response : Option ErrResponse) (retries : Nat)
  | validationFailure (responseData : Json) (zodError : String)

/-- `requestWithValidation` from src/http.ts lines 148-188: one transport
exchange (`http.request(config)`, i.e. `execute`), then — only on transport
success — an optional `schema.safeParse` of the body. A schema is embedded
as its `safeParse`: success yields the parsed data, failure yields the
structured error. The attempt trace is returned alongside the result. -/
def requestWithValidation (rs : RetrySettings) (outcomes : Nat → Outcome)
    (nowAt : Nat → Int) (desc : RequestDescriptor)
    (schema : Option (Json → Except String Json)) : List AttemptRecord × ExecResult :=
  let r := execute rs outcomes nowAt desc
  match r.2 with
  | .failure resp retries => (r.1, .transportFailure resp retries)
  | .success data =>
    match schema with
    | none => (r.1, .ok data)
    | some s =>
      match s data with
      | .ok parsed => (r.1, .ok parsed)
      | .error e => (r.1, .validationFailure data e)

/-- Claim C6: when the transport succeeds but the response body fails
schema validation, the raised failure carries both the raw response body
and the structured validation error, is a constructor distinct from any
transport failure, and is never retried regardless of maxRetries: the
attempt trace is exactly the transport's and does not depend on the
schema. -/
theorem validation_failure_not_retried :
    ∀ (rs : RetrySettings) (desc : RequestDescriptor) (outcomes : Nat → Outcome)
      (nowAt : Nat → Int) (s : Json → Except String Json) (data : Json) (e : String),
      (execute rs outcomes nowAt desc).2 = .success data →
      s data = .error e →
      (requestWithValidation rs outcomes nowAt desc (some s)).2 =
        .validationFailure data e ∧
      (∀ (resp : Option ErrResponse) (retries : Nat),
        (ExecResult.validationFailure data e) ≠ .transportFailure resp retries) ∧
      (∀ (schema : Option (Json → Except String Json)),
        (requestWithValidation rs outcomes nowAt desc schema).1 =
          (execute rs outcomes nowAt desc).1) := by
  intro rs desc outcomes nowAt s data e hsucc herr
  refine ⟨?_, ?_, ?_⟩
  · simp [requestWithValidation, hsucc, herr]
  · intro resp retries hne
    exact ExecResult.noConfusion hne
  · intro schema
    cases h2 : (execute rs outcomes nowAt desc).2 with
    | success b =>
      cases schema with
      | none => simp [requestWithValidation, h2]
      | some s' => cases hs : s' b <;> simp [requestWithValidation, h2, hs]
    | failure resp retries => simp [requestWithValidation, h2]

/-- Witness for C6: with maxRetries = 5, a successful response whose body
fails validation is reported as a validation failure carrying the raw body
and the error. -/
theorem validation_failure_not_retried_witness :
    (requestWithValidation
        { maxRetries := 5, initialDelayMs := 1000, maxDelayMs := 10000,
          retryableStatuses := [408, 429, 500, 502, 503, 504] }
        (fun _ => .success (Json.obj []))
        (fun _ => 0)
        { method := "GET", url := "/sessions/s1", params := [], data := none }
        (some (fun _ => Except.error "Response validation failed"))).2 =
      ExecResult.validationFailure (Json.obj []) "Response validation failed" :=
  (validation_failure_not_retried
      { maxRetries := 5, initialDelayMs := 1000, maxDelayMs := 10000,
        retryableStatuses := [408, 429, 500, 502, 503, 504] }
      { method := "GET", url := "/sessions/s1", params := [], data := none }
      (fun _ => .success (Json.obj []))
      (fun _ => 0)
      (fun _ => Except.error "Response validation failed")
      (Json.obj []) "Response validation failed" rfl rfl).1

/-! ## Schema registry: boolean validators over the JSON model

Each Zod schema is embedded as a `Json → Bool` validator: `z.object`
requires an object and checks each declared field (required fields must be
present and valid, `.optional()` fields must be valid when present);
unknown keys are ignored except under `.strict()`, which rejects them. -/

/-- `z.string()`. -/
def vStr : Json → Bool
  | .str _ => true
  | _ => false

/-- `z.string().min(1)`. -/
def vStrMin1 : Json → Bool
  | .str s => decide (1 ≤ s.length)
  | _ => false

/-- `z.boolean()`. -/
def vBool : Json → Bool
  | .bool _ => true
  | _ => false

/-- `z.number()`. -/
def vNum : Json → Bool
  | .num _ => true
  | _ => false

/-- `z.enum([...])`. -/
def vEnum (values : List String) : Json → Bool
  | .str s => values.contains s
  | _ => false

/-- `z.array(p)`. -/
def vArray (p : Json → Bool) : Json → Bool
  | .arr elems => elems.all p
  | _ => false

/-- A required object field: present and valid. -/
def reqField (j : Json) (k : String) (p : Json → Bool) : Bool :=
  match j.getField k with
  | some v => p v
  | none => false

/-- An `.optional()` object field: valid when present. -/
def optField (j : Json) (k : String) (p : Json → Bool) : Bool :=
  match j.getField k with
  | some v => p v
  | none => true

/-- `.strict()`: the payload is an object all of whose keys are recognized. -/
def strictKeys (j : Json) (allowed : List String) : Bool :=
  match j with
  | .obj fields => fields.all (fun kv => allowed.contains kv.1)
  | _ => false

/-! ### src/schemas/sessions.ts -/

def GithubRepoContextSchema (j : Json) : Bool :=
  j.isObj && reqField j "startingBranch" vStrMin1

def SourceContextSchema (j : Json) : Bool :=
  j.isObj && reqField j "source" vStrMin1 &&
  optField j "githubRepoContext" GithubRepoContextSchema

def AutomationModeEnum : Json → Bool :=
  vEnum ["AUTOMATION_MODE_UNSPECIFIED", "AUTO_CREATE_PR"]

def SessionStateEnum : Json → Bool :=
  vEnum ["STATE_UNSPECIFIED", "QUEUED", "PLANNING", "AWAITING_PLAN_APPROVAL",
    "AWAITING_USER_FEEDBACK", "IN_PROGRESS", "PAUSED", "FAILED", "COMPLETED"]

def CreateSessionRequestSchema (j : Json) : Bool :=
  j.isObj && reqField j "prompt" vStrMin1 &&
  reqField j "sourceContext" SourceContextSchema &&
  optField j "title" vStr && optField j "requirePlanApproval" vBool &&
  optField j "automationMode" AutomationModeEnum

def PullRequestSchema (j : Json) : Bool :=
  j.isObj && reqField j "url" vStr && reqField j "title" vStr &&
  reqField j "description" vStr

def SessionOutputSchema (j : Json) : Bool :=
  j.isObj && optField j "pullRequest" PullRequestSchema

/-- The recognized keys of `SessionSchema` (it is declared `.strict()`). -/
def sessionRecognizedKeys : List String :=
  ["name", "id", "createTime", "updateTime", "state", "url", "prompt",
   "sourceContext", "title", "requirePlanApproval", "automationMode", "outputs"]

/-- `SessionSchema` from src/schemas/sessions.ts lines 52-70: required
output-only fields, required input fields, optional fields, and `.strict()`
(any unrecognized key fails validation). -/
def SessionSchema (j : Json) : Bool :=
  reqField j "name" vStr && reqField j "id" vStr && reqField j "createTime" vStr &&
  reqField j "updateTime" vStr && reqField j "state" SessionStateEnum &&
  reqField j "url" vStr && reqField j "prompt" vStr &&
  reqField j "sourceContext" SourceContextSchema &&
  optField j "title" vStr && optField j "requirePlanApproval" vBool &&
  optField j "automationMode" AutomationModeEnum &&
  optField j "outputs" (vArray SessionOutputSchema) &&
  strictKeys j sessionRecognizedKeys

/-! ### src/schemas/sources.ts -/

def GitHubBranchSchema (j : Json) : Bool :=
  j.isObj && reqField j "displayName" vStrMin1

def GitHubRepoSchema (j : Json) : Bool :=
  j.isObj && reqField j "owner" vStrMin1 && reqField j "repo" vStrMin1 &&
  optField j "isPrivate" vBool && optField j "defaultBranch" GitHubBranchSchema &&
  optField j "branches" (vArray GitHubBranchSchema)

/-- `SourceSchema` from src/schemas/sources.ts: a plain (non-strict)
object schema — unknown keys are ignored. -/
def SourceSchema (j : Json) : Bool :=
  j.isObj && reqField j "name" vStrMin1 && reqField j "id" vStrMin1 &&
  optField j "githubRepo" GitHubRepoSchema

/-! ### src/schemas/activities.ts

Embedded from the current revision of the file, in which `ArtifactSchema`
and `ActivitySchema` are plain optional-field records with no
at-least-one-content refinement (the repository's test suite asserts that
an activity without any content field passes validation; an older revision
attached `.refine` constraints requiring one content field). -/

def BashOutputSchema (j : Json) : Bool :=
  j.isObj && optField j "command" vStr && optField j "output" vStr &&
  optField j "exitCode" vNum

def GitPatchSchema (j : Json) : Bool :=
  j.isObj && optField j "unidiffPatch" vStr && optField j "baseCommitId" vStr &&
  optField j "suggestedCommitMessage" vStr

def ChangeSetSchema (j : Json) : Bool :=
  j.isObj && optField j "source" vStr && optField j "gitPatch" GitPatchSchema

def MediaSchema (j : Json) : Bool :=
  j.isObj && optField j "data" vStr && optField j "mimeType" vStr

/-- `ArtifactSchema`: three optional content fields, none required. -/
def ArtifactSchema (j : Json) : Bool :=
  j.isObj && optField j "changeSet" ChangeSetSchema &&
  optField j "media" MediaSchema && optField j "bashOutput" BashOutputSchema

def PlanStepSchema (j : Json) : Bool :=
  j.isObj && reqField j "id" vStr && reqField j "title" vStr &&
  reqField j "description" vStr && reqField j "index" vNum

def PlanSchema (j : Json) : Bool :=
  j.isObj && reqField j "id" vStr && optField j "steps" (vArray PlanStepSchema) &&
  optField j "createTime" vStr

def AgentMessagedSchema (j : Json) : Bool :=
  j.isObj && reqField j "agentMessage" vStr

def UserMessagedSchema (j : Json) : Bool :=
  j.isObj && reqField j "userMessage" vStr

def PlanGeneratedSchema (j : Json) : Bool :=
  j.isObj && reqField j "plan" PlanSchema

def PlanApprovedSchema (j : Json) : Bool :=
  j.isObj && reqField j "planId" vStr

def ProgressUpdatedSchema (j : Json) : Bool :=
  j.isObj && optField j "title" vStr && optField j "description" vStr

def SessionCompletedSchema (j : Json) : Bool :=
  j.isObj

def SessionFailedSchema (j : Json) : Bool :=
  j.isObj && optField j "reason" vStr

/-- The seven optional activity content fields. -/
def ActivityContentSchema (j : Json) : Bool :=
  j.isObj && optField j "agentMessaged" AgentMessagedSchema &&
  optField j "userMessaged" UserMessagedSchema &&
  optField j "planGenerated" PlanGeneratedSchema &&
  optField j "planApproved" PlanApprovedSchema &&
  optField j "progressUpdated" ProgressUpdatedSchema &&
  optField j "sessionCompleted" SessionCompletedSchema &&
  optField j "sessionFailed" SessionFailedSchema

/-- `ActivitySchema`: required base fields intersected (`.and`) with the
optional content fields; no content field is required to be present. -/
def ActivitySchema (j : Json) : Bool :=
  (j.isObj && reqField j "name" vStr && reqField j "id" vStr &&
   optField j "description" vStr && reqField j "createTime" vStr &&
   reqField j "originator" vStr && optField j "artifacts" (vArray ArtifactSchema)) &&
  ActivityContentSchema j

/-! ## Resource facade preconditions (src/client.ts) -/

/-- The `prompt.trim().length === 0` test of `sendMessage`
(src/client.ts line 174): true iff every character is whitespace. -/
def isBlank (s : String) : Bool :=
  s.data.all (fun c => c.isWhitespace)

/-- Observable effect of a facade method: a synchronous precondition
failure before any network call, or the single POST issued. -/
inductive ClientCall where
  | precondFailure
  | httpPost (url : String) (body : Json)

/-- `sendMessage` from src/client.ts lines 172-178: reject a falsy (empty)
or whitespace-only prompt before any network call, otherwise POST
`/sessions/id:sendMessage` with body `{ prompt }`. -/
def sendMessage (sessionId : String) (prompt : String) : ClientCall :=
  if prompt = "" || isBlank prompt then .precondFailure
  else .httpPost ("/sessions/" ++ sessionId ++ ":sendMessage")
    (Json.obj [("prompt", Json.str prompt)])

/-- `createSession` from src/client.ts lines 74-83:
`CreateSessionRequestSchema.parse(request)` throws on an invalid request
before the network call; on success the POST body is the parsed request
(identical up to Zod stripping unrecognized keys, on which no claim
depends). -/
def createSession (request : Json) : ClientCall :=
  if CreateSessionRequestSchema request then .httpPost "/sessions" request
  else .precondFailure

/-- Claim C7: an empty or whitespace-only prompt makes `sendMessage` fail
synchronously before any network attempt, and a request rejected by the
create-session schema makes `createSession` fail synchronously; a valid
prompt issues exactly one POST whose body is `(prompt)` with the prompt
passed through unchanged. -/
theorem precondition_checked_before_network :
    (∀ (sessionId : String), sendMessage sessionId "" = .precondFailure) ∧
    (∀ (sessionId prompt : String), isBlank prompt = true →
      sendMessage sessionId prompt = .precondFailure) ∧
    (∀ (sessionId prompt : String), isBlank prompt = false →
      sendMessage sessionId prompt =
        .httpPost ("/sessions/" ++ sessionId ++ ":sendMessage")
          (Json.obj [("prompt", Json.str prompt)])) ∧
    (∀ (request : Json), CreateSessionRequestSchema request = false →
      createSession request = .precondFailure) := by
  refine ⟨?_, ?_, ?_, ?_⟩
  · intro sessionId
    simp [sendMessage]
  · intro sessionId prompt h
    simp [sendMessage, h]
  · intro sessionId prompt h
    have hne : prompt ≠ "" := by
      intro he
      rw [he] at h
      exact absurd h (by decide)
    simp [sendMessage, h, hne]
  · intro request h
    simp [createSession, h]

/-- Witness for C7: `sendMessage` rejects `""` and `"   "` before any
network call, forwards `"refactor X"` as the POST body unchanged, and
`createSession` rejects a request missing `sourceContext`. -/
theorem precondition_checked_before_network_witness :
    sendMessage "sess1" "" = .precondFailure ∧
    sendMessage "sess1" "   " = .precondFailure ∧
    sendMessage "sess1" "refactor X" =
      .httpPost ("/sessions/" ++ "sess1" ++ ":sendMessage")
        (Json.obj [("prompt", Json.str "refactor X")]) ∧
    createSession (Json.obj [("prompt", Json.str "test")]) = .precondFailure :=
  ⟨precondition_checked_before_network.1 "sess1",
   precondition_checked_before_network.2.1 "sess1" "   " (by decide),
   precondition_checked_before_network.2.2.1 "sess1" "refactor X" (by decide),
   precondition_checked_before_network.2.2.2
     (Json.obj [("prompt", Json.str "test")]) (by decide)⟩

/-- Counterexample to C8 as stated: the claim says a payload with none of
the named content fields fails validation, but the Activity schema accepts
an activity carrying only the base fields and no content field (exactly
the payload the repository's own test expects to pass), and the Artifact
schema accepts the empty object. -/
theorem activity_no_content_accepted :
    ActivitySchema (Json.obj
      [("name", Json.str "sessions/sess1/activities/bad"),
       ("id", Json.str "bad"),
       ("description", Json.str "Invalid"),
       ("createTime", Json.str "2025-10-17T10:00:00Z"),
       ("originator", Json.str "agent")]) = true ∧
    ArtifactSchema (Json.obj []) = true := by
  constructor <;> rfl

/-- Claim C8 (amended): the activity and artifact content fields are
optional — a payload validates when its base fields are valid and every
content field that is present validates against its sub-schema; no content
field is required to be present. In particular an activity with only
progressUpdated validates, an artifact with only bashOutput validates, an
activity with no content field validates, and a present-but-invalid
content field still fails validation. -/
theorem activity_artifact_content_validation :
    ActivitySchema (Json.obj
      [("name", Json.str "sessions/sess1/activities/act1"),
       ("id", Json.str "act1"),
       ("createTime", Json.str "2025-10-17T10:00:00Z"),
       ("originator", Json.str "agent"),
       ("progressUpdated", Json.obj
         [("title", Json.str "Planning"),
          ("description", Json.str "Creating plan")])]) = true ∧
    ArtifactSchema (Json.obj
      [("bashOutput", Json.obj
        [("command", Json.str "ls"), ("output", Json.str "file.txt")])]) = true ∧
    ActivitySchema (Json.obj
      [("name", Json.str "sessions/sess1/activities/act9"),
       ("id", Json.str "act9"),
       ("createTime", Json.str "2025-10-17T10:02:00Z"),
       ("originator", Json.str "user")]) = true ∧
    ActivitySchema (Json.obj
      [("name", Json.str "sessions/sess1/activities/act2"),
       ("id", Json.str "act2"),
       ("createTime", Json.str "2025-10-17T10:01:00Z"),
       ("originator", Json.str "agent"),
       ("agentMessaged", Json.obj [("agentMessage", Json.num 5)])]) = false := by
  refine ⟨rfl, rfl, rfl, rfl⟩

/-- Claim C9: the create-session request of the round-trip example passes
the request schema, and the server echo extended with the required
output-only fields validates as a Session with name, id, createTime,
updateTime, state, url, prompt and sourceContext all present, the prompt
and sourceContext echoing the request. -/
theorem create_session_round_trip :
    CreateSessionRequestSchema (Json.obj
      [("prompt", Json.str "Create a todo app"),
       ("sourceContext", Json.obj
         [("source", Json.str "sources/github/owner/repo"),
          ("githubRepoContext", Json.obj [("startingBranch", Json.str "main")])])]) = true ∧
    SessionSchema (Json.obj
      [("name", Json.str "sessions/sess123"),
       ("id", Json.str "sess123"),
       ("createTime", Json.str "2025-10-17T10:00:00Z"),
       ("updateTime", Json.str "2025-10-17T10:00:00Z"),
       ("state", Json.str "QUEUED"),
       ("url", Json.str "https://jules.google.com/sessions/sess123"),
       ("prompt", Json.str "Create a todo app"),
       ("sourceContext", Json.obj
         [("source", Json.str "sources/github/owner/repo"),
          ("githubRepoContext", Json.obj [("startingBranch", Json.str "main")])])]) = true ∧
    (["name", "id", "createTime", "updateTime", "state", "url", "prompt",
      "sourceContext"].all (fun k =>
        ((Json.obj
          [("name", Json.str "sessions/sess123"),
           ("id", Json.str "sess123"),
           ("createTime", Json.str "2025-10-17T10:00:00Z"),
           ("updateTime", Json.str "2025-10-17T10:00:00Z"),
           ("state", Json.str "QUEUED"),
           ("url", Json.str "https://jules.google.com/sessions/sess123"),
           ("prompt", Json.str "Create a todo app"),
           ("sourceContext", Json.obj
             [("source", Json.str "sources/github/owner/repo"),
              ("githubRepoContext", Json.obj
                [("startingBranch", Json.str "main")])])]).getField k).isSome)) = true := by
  refine ⟨rfl, rfl, rfl⟩

/-- Claim C10: `SessionSchema` is strict — any payload carrying a key
outside the recognized Session field set fails validation — while the
non-strict resource schemas (here `SourceSchema` and `ActivitySchema`)
accept payloads with unknown extra keys. -/
theorem session_schema_strict :
    (∀ (fields : List (String × Json)) (k : String) (v : Json),
      (k, v) ∈ fields →
      sessionRecognizedKeys.contains k = false →
      SessionSchema (Json.obj fields) = false) ∧
    sessionRecognizedKeys =
      ["name", "id", "createTime", "updateTime", "state", "url", "prompt",
       "sourceContext", "title", "requirePlanApproval", "automationMode", "outputs"] ∧
    SourceSchema (Json.obj
      [("name", Json.str "sources/github/o/r"), ("id", Json.str "src1"),
       ("unrecognizedField", Json.null)]) = true ∧
    ActivitySchema (Json.obj
      [("name", Json.str "sessions/s1/activities/a1"),
       ("id", Json.str "a1"),
       ("createTime", Json.str "2025-10-17T10:00:00Z"),
       ("originator", Json.str "agent"),
       ("unrecognizedField", Json.null)]) = true := by
  refine ⟨?_, rfl, rfl, rfl⟩
  intro fields k v hmem hk
  have hs : strictKeys (Json.obj fields) sessionRecognizedKeys = false := by
    simp only [strictKeys]
    cases hall : fields.all (fun kv => sessionRecognizedKeys.contains kv.1) with
    | false => rfl
    | true =>
      have := List.all_eq_true.mp hall (k, v) hmem
      simp only at this
      rw [this] at hk
      exact absurd hk (by simp)
  simp [SessionSchema, hs]

/-- Witness for C10: a session payload with the extra key "extra" fails
validation. -/
theorem session_schema_strict_witness :
    sessionRecognizedKeys.contains "extra" = false ∧
    SessionSchema (Json.obj
      [("name", Json.str "sessions/s1"), ("extra", Json.null)]) = false :=
  ⟨by decide,
   session_schema_strict.1
     [("name", Json.str "sessions/s1"), ("extra", Json.null)] "extra" Json.null
     (List.Mem.tail _ (List.Mem.head _)) (by decide)⟩
